import Mathlib

/-!
Verification of the AnkiDeck generator core (`src/generator.py`).

The Python functions `is_valid_format`, `parse_generated_response`,
`parse_input_file`, `get_word_translation_and_example` and
`create_anki_deck` are shallowly embedded below.  Python strings are
modelled as Lean `String`/`List Char` (ASCII fragment of the Python
string methods: `strip`, `capitalize`, `lower`, `istitle`, substring
containment), the regex operations of the source are embedded as
explicit character scanners, and the OpenAI client is an oracle
function supplied as a parameter.  Sleeps and call counts are recorded
in the result so that the retry/backoff contract can be stated.
-/

namespace AnkiGen

/-- The whitespace characters stripped by Python `str.strip()`
(ASCII fragment). -/
def pyIsSpace (c : Char) : Bool :=
  c == ' ' || c == '\t' || c == '\n' || c == '\r' || c == '\x0b' || c == '\x0c'

/-- Python `str.strip()`: drop leading and trailing whitespace. -/
def pyStrip (l : List Char) : List Char :=
  ((l.dropWhile pyIsSpace).reverse.dropWhile pyIsSpace).reverse

/-- `str.strip()` at `String` level. -/
def stripS (s : String) : String :=
  ⟨pyStrip s.data⟩

/-- Python `str.lower()` (ASCII). -/
def pyLower (l : List Char) : List Char :=
  l.map Char.toLower

/-- Python `str.capitalize()` (ASCII): first character uppercased,
the rest lowercased.  Used on every input line in `parse_input_file`
(generator.py line 47). -/
def pyCapitalize : List Char → List Char
  | [] => []
  | c :: rest => c.toUpper :: rest.map Char.toLower

/-- Helper for Python `str.istitle()`: walks the characters carrying
whether the previous character was cased and whether any cased
character has been seen. -/
def isTitleAux : List Char → Bool → Bool → Bool
  | [], _, cased => cased
  | c :: rest, prevCased, cased =>
    if c.isUpper then
      if prevCased then false else isTitleAux rest true true
    else if c.isLower then
      if prevCased then isTitleAux rest true true else false
    else
      isTitleAux rest false cased

/-- Python `str.istitle()` (ASCII): uppercase letters may only follow
uncased characters, lowercase letters may only follow cased ones, and
at least one cased character must occur. -/
def pyIsTitle (l : List Char) : Bool :=
  isTitleAux l false false

/-- Python substring containment `needle in hay`. -/
def containsSeq : List Char → List Char → Bool
  | needle, [] => needle.isEmpty
  | needle, c :: rest => needle.isPrefixOf (c :: rest) || containsSeq needle rest

/-- Fuel-driven embedding of `re.findall(r'\(([^)]+)\)', s)`
(generator.py lines 77 and 99): scan left to right; at each `'('`
take the maximal run of non-`')'` characters; if that run is non-empty
and followed by `')'` it is a captured group and scanning resumes
after the `')'`, otherwise scanning resumes at the next character.
The fuel only needs to cover the length of the list, since every
step consumes at least one character. -/
def scanGroupsFuel : Nat → List Char → List (List Char)
  | 0, _ => []
  | _ + 1, [] => []
  | fuel + 1, c :: rest =>
    if c = '(' then
      let grp := rest.takeWhile (fun x => x ≠ ')')
      if grp.length = 0 ∨ grp.length = rest.length then
        scanGroupsFuel fuel rest
      else
        grp :: scanGroupsFuel fuel (rest.drop (grp.length + 1))
    else
      scanGroupsFuel fuel rest

/-- `re.findall(r'\(([^)]+)\)', s)` on a character list. -/
def scanGroups (l : List Char) : List (List Char) :=
  scanGroupsFuel l.length l

/-- Embedding of `is_valid_format` (generator.py lines 61-84):
the counts of `'('` and `')'` must both equal 2 and the group scan
must extract exactly two groups. -/
def is_valid_format (result : String) : Bool :=
  if result.data.count '(' != 2 || result.data.count ')' != 2 then
    false
  else if (scanGroups result.data).length == 2 then
    true
  else
    false

/-- Length (in characters) of a match of the disclaimer pattern
`vertaalt naar.*\n*.*voorbeeldzin.*` starting at the head of `t`
(generator.py line 102), `none` when there is no match here.  After
the literal `"vertaalt naar"`, `.*` runs to the end of the line,
`\n*` over the following newline block, and the second `.*` over the
next line, which must contain `"voorbeeldzin"`; the trailing `.*`
extends the match to the end of that line.  If the newline-block
route fails, backtracking finds `"voorbeeldzin"` on the first line
itself. -/
def disclaimerMatchLen (t : List Char) : Option Nat :=
  if ("vertaalt naar".data).isPrefixOf t then
    let r := t.drop 13
    let line1 := r.takeWhile (fun c => c ≠ '\n')
    let nls := (r.drop line1.length).takeWhile (fun c => c = '\n')
    let line2 := (r.drop (line1.length + nls.length)).takeWhile (fun c => c ≠ '\n')
    if containsSeq ("voorbeeldzin".data) line2 then
      some (13 + line1.length + nls.length + line2.length)
    else if containsSeq ("voorbeeldzin".data) line1 then
      some (13 + line1.length)
    else
      none
  else
    none

/-- Fuel-driven embedding of
`re.sub(r"vertaalt naar.*\n*.*voorbeeldzin.*", "", s)`
(generator.py line 102): delete every non-overlapping match, scanning
left to right. -/
def subDisclaimerFuel : Nat → List Char → List Char
  | 0, l => l
  | _ + 1, [] => []
  | fuel + 1, c :: rest =>
    match disclaimerMatchLen (c :: rest) with
    | some n => subDisclaimerFuel fuel ((c :: rest).drop n)
    | none => c :: subDisclaimerFuel fuel rest

/-- The disclaimer-removing `re.sub` of generator.py line 102. -/
def subDisclaimer (l : List Char) : List Char :=
  subDisclaimerFuel l.length l

/-- The article heuristic of generator.py lines 107-108: when the
target word is not already title-cased and its lowercasing contains
neither `"de"` nor `"het"`, prepend `"De "`. -/
def normalizeArticle (tw : String) : String :=
  if !pyIsTitle tw.data && !containsSeq ("de".data) (pyLower tw.data)
      && !containsSeq ("het".data) (pyLower tw.data) then
    "De " ++ tw
  else
    tw

/-- Embedding of `parse_generated_response` (generator.py lines
86-115).  The Python tuple unpacking of the `findall` result raises
unless exactly two groups were found; the surrounding `try` turns any
such failure into the `"Parsing error"` triple.  On success the
source sentence is the stripped text before the first `'('` with the
disclaimer pattern removed and re-stripped, the target sentence is
the stripped first group, and the target word is the second group
after the article heuristic, stripped. -/
def parse_generated_response (result : String) : String × String × String :=
  match scanGroups result.data with
  | [target_sentence, target_word] =>
    let ss0 := pyStrip (result.data.takeWhile (fun c => c ≠ '('))
    let ss1 := pyStrip (subDisclaimer ss0)
    let tw := normalizeArticle ⟨target_word⟩
    (⟨ss1⟩, ⟨pyStrip target_sentence⟩, ⟨pyStrip tw.data⟩)
  | _ => ("Parsing error", "Parsing error", "Parsing error")

/-- The outcome of the file I/O performed by `parse_input_file`
(generator.py lines 44-58): the file is read line by line; either all
lines are yielded, or `open` raises `FileNotFoundError`, or some other
exception is raised after a prefix of the lines has been yielded
(`failAfter []` models a non-not-found failure at `open`, such as a
permission error). -/
inductive ReadOutcome where
  | ok (lines : List String)
  | notFound
  | failAfter (lines : List String)

/-- Which of the three reporting paths of `parse_input_file` ran: the
normal return, the specific `FileNotFoundError` message of line 56, or
the generic `An error occurred` message of line 58. -/
inductive LoadReport where
  | success
  | fileNotFound
  | otherError
deriving DecidableEq

/-- The per-line processing loop of `parse_input_file` (generator.py
lines 46-54): each line is stripped and capitalized, and kept only if
non-empty. -/
def processInputLines (lines : List String) : List String :=
  (lines.map (fun line => (⟨pyCapitalize (pyStrip line.data)⟩ : String))).filter
    (fun l => l != "")

/-- Embedding of `parse_input_file` (generator.py lines 32-59): the
accumulated items are returned in every case — all processed lines on
success, none when the file was not found, and the lines processed
before the failure on any other error. -/
def parse_input_file : ReadOutcome → List String × LoadReport
  | ReadOutcome.ok lines => (processInputLines lines, LoadReport.success)
  | ReadOutcome.notFound => ([], LoadReport.fileNotFound)
  | ReadOutcome.failAfter lines => (processInputLines lines, LoadReport.otherError)

/-- One call to the OpenAI chat-completion endpoint: either the
response text (`response.choices[0].message.content`, before the
`.strip()` of line 161) or a `RateLimitError`. -/
inductive ClientResult where
  | ok (text : String)
  | rateLimited

/-- Observable outcome of `get_word_translation_and_example`: the
returned string, the number of client calls made, and the sequence of
`time.sleep` durations (generator.py line 171). -/
structure TransOutcome where
  text : String
  calls : Nat
  sleeps : List Nat
deriving DecidableEq

/-- The sentinel returned by `get_word_translation_and_example` when
the retry budget is exhausted (generator.py lines 174 and 176). -/
def notAvailable : String := "Translation and example not available."

/-- The `for attempt in range(retries)` loop of
`get_word_translation_and_example` (generator.py lines 135-176),
recursing on the number of remaining iterations (`attempt = retries -
remaining`).  A valid-format response is returned at once; an
invalid-format response retries immediately; a `RateLimitError`
sleeps `2 ^ attempt` and retries unless the attempt was the last, in
which case the sentinel is returned; falling out of the loop also
returns the sentinel. -/
def gwteLoop (client : Nat → ClientResult) (retries : Nat) :
    Nat → Nat → List Nat → TransOutcome
  | 0, calls, sleeps => ⟨notAvailable, calls, sleeps⟩
  | remaining + 1, calls, sleeps =>
    let attempt := retries - (remaining + 1)
    match client attempt with
    | ClientResult.ok text =>
      if is_valid_format (stripS text) then
        ⟨stripS text, calls + 1, sleeps⟩
      else
        gwteLoop client retries remaining (calls + 1) sleeps
    | ClientResult.rateLimited =>
      if attempt < retries - 1 then
        gwteLoop client retries remaining (calls + 1) (sleeps ++ [2 ^ attempt])
      else
        ⟨notAvailable, calls + 1, sleeps⟩

/-- Embedding of `get_word_translation_and_example` (generator.py
lines 118-176), with the endpoint abstracted as an oracle from the
attempt number to that call's outcome. -/
def get_word_translation_and_example (client : Nat → ClientResult) (retries : Nat) :
    TransOutcome :=
  gwteLoop client retries retries 0 []

/-- A note added to the deck (generator.py lines 252-255), with the
four fields in the order `[item, target_word_translation,
source_sentence, target_sentence]`. -/
structure AnkiNote where
  sourceWord : String
  targetWord : String
  sourceSentence : String
  targetSentence : String
deriving DecidableEq

/-- Embedding of the note-producing loop of `create_anki_deck`
(generator.py lines 236-256): one note per item, in order, each built
from the parsed translation result; the client oracle takes the item
and the attempt number.  The source passes the default retry budget
of 3 (generator.py lines 118 and 241). -/
def create_anki_deck (items : List String) (client : String → Nat → ClientResult) :
    List AnkiNote :=
  items.map (fun item =>
    let tr := get_word_translation_and_example (client item) 3
    let p := parse_generated_response tr.text
    ⟨item, p.2.2, p.1, p.2.1⟩)

end AnkiGen

namespace AnkiGen

/-- A non-whitespace member of a list survives `dropWhile pyIsSpace`. -/
lemma mem_dropWhile_of_mem {c : Char} {l : List Char} (hc : c ∈ l)
    (hw : pyIsSpace c = false) : c ∈ l.dropWhile pyIsSpace := by
  induction l with
  | nil => cases hc
  | cons a t ih =>
    rcases List.mem_cons.mp hc with rfl | hct
    · simp [List.dropWhile_cons, hw]
    · by_cases ha : pyIsSpace a = true
      · simpa [List.dropWhile_cons, ha] using ih hct
      · simp only [List.dropWhile_cons, ha, if_false]
        exact List.mem_cons_of_mem a hct

/-- A list containing a non-whitespace character does not strip to
the empty list. -/
lemma pyStrip_ne_nil {c : Char} {l : List Char} (hc : c ∈ l)
    (hw : pyIsSpace c = false) : pyStrip l ≠ [] := by
  have h1 := mem_dropWhile_of_mem hc hw
  have h2 : c ∈ (l.dropWhile pyIsSpace).reverse := List.mem_reverse.mpr h1
  have h3 := mem_dropWhile_of_mem h2 hw
  intro h
  rw [pyStrip, List.reverse_eq_nil_iff] at h
  rw [h] at h3
  cases h3

/-- If `isTitleAux` returns `true` with the seen-cased flag initially
clear, the list contains a cased character. -/
lemma isTitleAux_cased {l : List Char} {p cz : Bool}
    (h : isTitleAux l p cz = true) :
    cz = true ∨ ∃ c ∈ l, (c.isUpper || c.isLower) = true := by
  induction l generalizing p cz with
  | nil => left; simpa [isTitleAux] using h
  | cons a t ih =>
    by_cases hu : a.isUpper = true
    · right; exact ⟨a, List.mem_cons_self a t, by simp [hu]⟩
    · by_cases hl : a.isLower = true
      · right; exact ⟨a, List.mem_cons_self a t, by simp [hl]⟩
      · rw [isTitleAux, if_neg (by simp [hu]), if_neg (by simp [hl])] at h
        rcases ih h with hcz | ⟨c, hcmem, hcc⟩
        · left; exact hcz
        · right; exact ⟨c, List.mem_cons_of_mem a hcmem, hcc⟩

/-- If a non-empty needle occurs as a substring, its head occurs in
the haystack. -/
lemma containsSeq_head_mem {a : Char} {nd hay : List Char}
    (h : containsSeq (a :: nd) hay = true) : a ∈ hay := by
  induction hay with
  | nil => simp [containsSeq, List.isEmpty] at h
  | cons c rest ih =>
    rw [containsSeq, Bool.or_eq_true] at h
    rcases h with h | h
    · rw [List.isPrefixOf, Bool.and_eq_true, beq_iff_eq] at h
      exact h.1 ▸ List.mem_cons_self c rest
    · exact List.mem_cons_of_mem c (ih h)

/-- The whitespace characters of `pyIsSpace`, enumerated. -/
lemma pyIsSpace_cases {c : Char} (h : pyIsSpace c = true) :
    c = ' ' ∨ c = '\t' ∨ c = '\n' ∨ c = '\r' ∨ c = '\x0b' ∨ c = '\x0c' := by
  simp [pyIsSpace] at h
  tauto

/-- Cased characters are not whitespace. -/
lemma pyIsSpace_of_cased {c : Char} (h : (c.isUpper || c.isLower) = true) :
    pyIsSpace c = false := by
  by_contra hw
  have hw2 : pyIsSpace c = true := by simpa using hw
  rcases pyIsSpace_cases hw2 with rfl | rfl | rfl | rfl | rfl | rfl <;> simp_all

/-- `toLower` fixes whitespace characters. -/
lemma toLower_of_space {c : Char} (h : pyIsSpace c = true) : c.toLower = c := by
  rcases pyIsSpace_cases h with rfl | rfl | rfl | rfl | rfl | rfl <;> decide

/-- A character whose lowercasing is `'d'` is not whitespace. -/
lemma not_space_of_toLower_d {c : Char} (h : c.toLower = 'd') :
    pyIsSpace c = false := by
  by_contra hw
  have hw2 : pyIsSpace c = true := by simpa using hw
  rw [toLower_of_space hw2] at h
  subst h
  simp [pyIsSpace] at hw2

/-- A character whose lowercasing is `'h'` is not whitespace. -/
lemma not_space_of_toLower_h {c : Char} (h : c.toLower = 'h') :
    pyIsSpace c = false := by
  by_contra hw
  have hw2 : pyIsSpace c = true := by simpa using hw
  rw [toLower_of_space hw2] at h
  subst h
  simp [pyIsSpace] at hw2

/-- A `String.mk` is the empty string exactly when its character list
is empty. -/
lemma mk_eq_empty_iff {l : List Char} : (⟨l⟩ : String) = "" ↔ l = [] := by
  constructor
  · intro h
    simpa using congrArg String.data h
  · rintro rfl
    rfl

/-- Every group captured by the scanner is non-empty: the regex
`\(([^)]+)\)` requires at least one character between the
parentheses. -/
lemma scanGroupsFuel_ne_nil :
    ∀ (fuel : Nat) (l g : List Char), g ∈ scanGroupsFuel fuel l → g ≠ [] := by
  intro fuel
  induction fuel with
  | zero =>
    intro l g hg
    simp [scanGroupsFuel] at hg
  | succ n ih =>
    intro l g hg
    cases l with
    | nil => simp [scanGroupsFuel] at hg
    | cons c rest =>
      simp only [scanGroupsFuel] at hg
      by_cases hc : c = '('
      · rw [if_pos hc] at hg
        by_cases hz : (rest.takeWhile (fun x => x ≠ ')')).length = 0 ∨
            (rest.takeWhile (fun x => x ≠ ')')).length = rest.length
        · rw [if_pos hz] at hg
          exact ih rest g hg
        · rw [if_neg hz] at hg
          rcases List.mem_cons.mp hg with rfl | hmem
          · intro hnil
            push_neg at hz
            exact hz.1 (by rw [hnil]; rfl)
          · exact ih _ g hmem
      · rw [if_neg hc] at hg
        exact ih rest g hg

/-- Every group captured by `scanGroups` is non-empty. -/
lemma scanGroups_ne_nil {l g : List Char} (hg : g ∈ scanGroups l) : g ≠ [] :=
  scanGroupsFuel_ne_nil l.length l g hg

/-- The target word returned by the parser is never the empty string:
on the failure path it is `"Parsing error"`, and on the success path
either `"De "` was prepended or the raw group was title-cased or
contained an article token, so a non-whitespace character survives the
final strip. -/
lemma parse_targetWord_ne_empty (r : String) :
    (parse_generated_response r).2.2 ≠ "" := by
  rw [parse_generated_response]
  rcases hg : scanGroups r.data with _ | ⟨g1, _ | ⟨g2, _ | ⟨g3, gs⟩⟩⟩
  · intro h
    simp at h
  · intro h
    simp at h
  · -- the success path
    simp only []
    intro h
    rw [mk_eq_empty_iff] at h
    rw [normalizeArticle] at h
    by_cases hcond : (!pyIsTitle (String.data ⟨g2⟩)
        && !containsSeq ("de".data) (pyLower (String.data ⟨g2⟩))
        && !containsSeq ("het".data) (pyLower (String.data ⟨g2⟩))) = true
    · rw [if_pos hcond] at h
      have hD : 'D' ∈ ("De " ++ (⟨g2⟩ : String)).data := by
        rw [String.data_append]
        exact List.mem_append_left _ (by decide)
      exact pyStrip_ne_nil hD (by decide) h
    · rw [if_neg hcond] at h
      have hcond2 : pyIsTitle g2 = true ∨
          containsSeq ("de".data) (pyLower g2) = true ∨
          containsSeq ("het".data) (pyLower g2) = true := by
        revert hcond
        cases pyIsTitle g2 <;> cases containsSeq ("de".data) (pyLower g2) <;>
          cases containsSeq ("het".data) (pyLower g2) <;> simp
      rcases hcond2 with ht | hde | hhet
      · rcases isTitleAux_cased ht with hfalse | ⟨c, hcmem, hcc⟩
        · cases hfalse
        · exact pyStrip_ne_nil hcmem (pyIsSpace_of_cased hcc) h
      · have hd : 'd' ∈ pyLower g2 := containsSeq_head_mem hde
        rcases List.mem_map.mp hd with ⟨c, hcmem, hlc⟩
        exact pyStrip_ne_nil hcmem (not_space_of_toLower_d hlc) h
      · have hh : 'h' ∈ pyLower g2 := containsSeq_head_mem hhet
        rcases List.mem_map.mp hh with ⟨c, hcmem, hlc⟩
        exact pyStrip_ne_nil hcmem (not_space_of_toLower_h hlc) h
  · intro h
    simp at h

/-- A processed input line is non-empty exactly when the stripped
line is. -/
lemma processed_ne_empty_iff (a : String) :
    ((⟨pyCapitalize (pyStrip a.data)⟩ : String) != "") =
      !(pyStrip a.data).isEmpty := by
  rcases hp : pyStrip a.data with _ | ⟨c, r⟩
  · rfl
  · simp only [pyCapitalize, List.isEmpty]
    have hne : (⟨c.toUpper :: r.map Char.toLower⟩ : String) ≠ "" := by
      intro hEq
      have := mk_eq_empty_iff.mp hEq
      cases this
    simp [bne_iff_ne, hne]

/-- The number of loaded items equals the number of lines that are
non-blank after stripping. -/
lemma processInputLines_length (lines : List String) :
    (processInputLines lines).length =
      lines.countP (fun l => !(pyStrip l.data).isEmpty) := by
  induction lines with
  | nil => rfl
  | cons a t ih =>
    rw [processInputLines, List.map_cons, List.filter_cons] at *
    rw [List.countP_cons]
    by_cases hb : ((⟨pyCapitalize (pyStrip a.data)⟩ : String) != "") = true
    · rw [if_pos hb, List.length_cons, ih]
      rw [processed_ne_empty_iff] at hb
      rw [hb]
      simp
    · rw [if_neg hb, ih]
      rw [processed_ne_empty_iff] at hb
      have : (!(pyStrip a.data).isEmpty) = false := by
        revert hb
        cases (!(pyStrip a.data).isEmpty) <;> simp
      rw [this]
      simp

/-- Every loaded item is a non-empty string. -/
lemma processInputLines_mem_ne_empty {lines : List String} {item : String}
    (h : item ∈ processInputLines lines) : item ≠ "" := by
  rw [processInputLines] at h
  have := (List.mem_filter.mp h).2
  simpa [bne_iff_ne] using this

/-- When every client call fails (rate limit or invalid format), the
retry loop ends with the sentinel text. -/
lemma gwteLoop_all_fail (cl : Nat → ClientResult)
    (h : ∀ i t, cl i = ClientResult.ok t → is_valid_format (stripS t) = false) :
    ∀ k calls sleeps, (gwteLoop cl 3 k calls sleeps).text = notAvailable := by
  intro k
  induction k with
  | zero => intro calls sleeps; rfl
  | succ n ih =>
    intro calls sleeps
    rw [gwteLoop]
    rcases hc : cl (3 - (n + 1)) with t | _
    · simp only []
      rw [h _ t hc, if_neg (by simp)]
      exact ih _ _
    · simp only []
      by_cases hlt : 3 - (n + 1) < 3 - 1
      · rw [if_pos hlt]
        exact ih _ _
      · rw [if_neg hlt]

/-- Claim C1: the dual-mode validator accepts a string exactly when
the count of `'('` is 2, the count of `')'` is 2, and exactly two
groups are extractable by the group scan (every extracted group being
non-empty); in particular `"Hola (Hello) (Hola)"` is valid while
`"Hola (Hello"` and `"Hola (Hello) (Hola) (extra)"` are not. -/
theorem C1_dual_mode_validator :
    (∀ s : String, is_valid_format s = true ↔
      (s.data.count '(' = 2 ∧ s.data.count ')' = 2 ∧
        (scanGroups s.data).length = 2)) ∧
    (∀ s : String, (scanGroups s.data).all (fun g => !g.isEmpty) = true) ∧
    is_valid_format "Hola (Hello) (Hola)" = true ∧
    is_valid_format "Hola (Hello" = false ∧
    is_valid_format "Hola (Hello) (Hola) (extra)" = false := by
  refine ⟨?_, ?_, by decide, by decide, by decide⟩
  · intro s
    by_cases h1 : s.data.count '(' = 2 <;> by_cases h2 : s.data.count ')' = 2 <;>
      by_cases h3 : (scanGroups s.data).length = 2 <;>
        simp [is_valid_format, h1, h2, h3]
  · intro s
    rw [List.all_eq_true]
    intro g hg
    have hne := scanGroups_ne_nil hg
    cases g with
    | nil => exact absurd rfl hne
    | cons a t => rfl

/-- Claim C2 counterexample: on the spec's round-trip input the code
does not return `"El perro"` as the target word — the article
heuristic fires (the group is not title-cased and contains neither
`"de"` nor `"het"`). -/
theorem C2_counterexample :
    parse_generated_response "El perro corre. (The dog runs.) (El perro)" ≠
      ("El perro corre.", "The dog runs.", "El perro") := by decide

/-- Claim C2 (amended): on the spec's round-trip input the parser
yields source sentence `"El perro corre."`, target sentence
`"The dog runs."`, and target word `"De El perro"`. -/
theorem C2_parser_roundtrip_amended :
    parse_generated_response "El perro corre. (The dog runs.) (El perro)" =
      ("El perro corre.", "The dog runs.", "De El perro") := by decide

/-- Claim C3 counterexample: with retry limit 3 and a client that is
always rate limited, the sleep sequence is `[1, 2]`, not `[1, 2, 4]`
— the final attempt returns the sentinel without sleeping. -/
theorem C3_counterexample :
    (get_word_translation_and_example (fun _ => ClientResult.rateLimited) 3).sleeps
        = [1, 2] ∧
    (get_word_translation_and_example (fun _ => ClientResult.rateLimited) 3).sleeps
        ≠ [1, 2, 4] := ⟨by decide, by decide⟩

/-- Claim C3 (amended): with retry limit 3 and a client failing with
`RateLimited` on every call, exactly 3 client calls are made, the
sleeps are `2 ^ 0 = 1` and `2 ^ 1 = 2` after the two non-final
attempts (none after the final one), and the `"not available"`
sentinel is returned instead of raising. -/
theorem C3_retry_budget_amended (client : Nat → ClientResult)
    (h : ∀ i, client i = ClientResult.rateLimited) :
    get_word_translation_and_example client 3 = ⟨notAvailable, 3, [1, 2]⟩ := by
  have hc : client = fun _ => ClientResult.rateLimited := funext h
  subst hc
  decide

/-- Witness for C3: the always-rate-limited client satisfies the
hypothesis and produces the stated outcome. -/
theorem C3_witness :
    get_word_translation_and_example (fun _ => ClientResult.rateLimited) 3 =
      ⟨notAvailable, 3, [1, 2]⟩ :=
  C3_retry_budget_amended (fun _ => ClientResult.rateLimited) (fun _ => rfl)

/-- Claim C4 counterexample: `"Huis"` is title-cased, so the article
rule leaves it unchanged rather than producing `"De Huis"`. -/
theorem C4_counterexample :
    normalizeArticle "Huis" = "Huis" ∧ normalizeArticle "Huis" ≠ "De Huis" :=
  ⟨by decide, by decide⟩

/-- Claim C4 (amended): the hardcoded article rule prepends `"De "`
exactly when the target word is not title-cased and its lowercasing
contains neither `"de"` nor `"het"`; hence `"Huis"` (title-cased) and
`"Het huis"` (contains `"het"`) are unchanged, while `"huis"` becomes
`"De huis"`. -/
theorem C4_article_normalization_amended :
    (∀ tw : String,
      pyIsTitle tw.data = false →
      containsSeq ("de".data) (pyLower tw.data) = false →
      containsSeq ("het".data) (pyLower tw.data) = false →
      normalizeArticle tw = "De " ++ tw) ∧
    (∀ tw : String,
      pyIsTitle tw.data = true ∨ containsSeq ("de".data) (pyLower tw.data) = true ∨
        containsSeq ("het".data) (pyLower tw.data) = true →
      normalizeArticle tw = tw) ∧
    normalizeArticle "Huis" = "Huis" ∧
    normalizeArticle "huis" = "De huis" ∧
    normalizeArticle "Het huis" = "Het huis" := by
  refine ⟨?_, ?_, by decide, by decide, by decide⟩
  · intro tw h1 h2 h3
    have hcond : (!pyIsTitle tw.data && !containsSeq ("de".data) (pyLower tw.data)
        && !containsSeq ("het".data) (pyLower tw.data)) = true := by
      rw [h1, h2, h3]
      rfl
    rw [normalizeArticle, hcond]
    simp
  · intro tw h
    have hcond : (!pyIsTitle tw.data && !containsSeq ("de".data) (pyLower tw.data)
        && !containsSeq ("het".data) (pyLower tw.data)) = false := by
      rcases h with h | h | h <;> rw [h] <;> simp
    rw [normalizeArticle, hcond]
    simp

/-- Witness for C4: `"huis"` satisfies all three hypotheses of the
prepend branch and gains the article. -/
theorem C4_witness :
    pyIsTitle ("huis" : String).data = false ∧
    containsSeq ("de".data) (pyLower ("huis" : String).data) = false ∧
    containsSeq ("het".data) (pyLower ("huis" : String).data) = false ∧
    normalizeArticle "huis" = "De " ++ "huis" :=
  ⟨by decide, by decide, by decide,
    C4_article_normalization_amended.1 "huis" (by decide) (by decide) (by decide)⟩

/-- Claim C5: when the client always returns text failing format
validation (and never raises), the operation makes 3 attempts with no
backoff sleeps and then returns the `"not available"` sentinel instead
of raising. -/
theorem C5_invalid_format_retry (client : Nat → ClientResult)
    (h : ∀ i, ∃ t, client i = ClientResult.ok t ∧
      is_valid_format (stripS t) = false) :
    get_word_translation_and_example client 3 = ⟨notAvailable, 3, []⟩ := by
  obtain ⟨t0, h0, v0⟩ := h 0
  obtain ⟨t1, h1, v1⟩ := h 1
  obtain ⟨t2, h2, v2⟩ := h 2
  simp [get_word_translation_and_example, gwteLoop, h0, h1, h2, v0, v1, v2]

/-- Witness for C5: a client that always answers `"nope"`. -/
theorem C5_witness :
    is_valid_format (stripS "nope") = false ∧
    get_word_translation_and_example (fun _ => ClientResult.ok "nope") 3 =
      ⟨notAvailable, 3, []⟩ :=
  ⟨by decide,
    C5_invalid_format_retry (fun _ => ClientResult.ok "nope")
      (fun _ => ⟨"nope", rfl, by decide⟩)⟩

/-- Claim C6: whenever extraction would throw — the group scan yields
a number of groups other than two — the parser returns the
`"Parsing error"` sentinel triple; being a total function, it never
propagates an exception. -/
theorem C6_parse_error_sentinel (s : String)
    (h : (scanGroups s.data).length ≠ 2) :
    parse_generated_response s =
      ("Parsing error", "Parsing error", "Parsing error") := by
  rw [parse_generated_response]
  rcases hg : scanGroups s.data with _ | ⟨a, _ | ⟨b, _ | ⟨_, _⟩⟩⟩
  · rfl
  · rfl
  · rw [hg] at h
    simp at h
  · rfl

/-- Witness for C6: a response with no parenthetical group at all. -/
theorem C6_witness :
    (scanGroups ("no parens here" : String).data).length ≠ 2 ∧
    parse_generated_response "no parens here" =
      ("Parsing error", "Parsing error", "Parsing error") :=
  ⟨by decide, C6_parse_error_sentinel "no parens here" (by decide)⟩

/-- Claim C7: for every input file and every client behaviour, the
deck gets exactly one card per non-blank (after stripping) line, and
the i-th card's source-word field is the i-th loaded item (the deck's
source words are exactly the loaded items, in order). -/
theorem C7_card_count_and_order (lines : List String)
    (client : String → Nat → ClientResult) :
    (create_anki_deck (parse_input_file (ReadOutcome.ok lines)).1 client).map
        AnkiNote.sourceWord = (parse_input_file (ReadOutcome.ok lines)).1 ∧
    (create_anki_deck (parse_input_file (ReadOutcome.ok lines)).1 client).length =
      lines.countP (fun l => !(pyStrip l.data).isEmpty) := by
  constructor
  · rw [create_anki_deck]
    generalize (parse_input_file (ReadOutcome.ok lines)).1 = items
    induction items with
    | nil => rfl
    | cons a t ih =>
      simp only [List.map_cons, ih]
  · have hlen : (create_anki_deck (parse_input_file (ReadOutcome.ok lines)).1
        client).length = ((parse_input_file (ReadOutcome.ok lines)).1).length := by
      rw [create_anki_deck, List.length_map]
    rw [hlen]
    exact processInputLines_length lines

/-- Claim C8 counterexample: an I/O error that is not
file-not-found, raised after one line was already read, makes the
loader return that line's item — not an empty sequence. -/
theorem C8_counterexample :
    parse_input_file (ReadOutcome.failAfter ["casa"]) =
      (["Casa"], LoadReport.otherError) ∧
    (["Casa"] : List String) ≠ [] := ⟨by decide, by decide⟩

/-- Claim C8 (amended): the loader reports the distinct
file-not-found message (and yields no items) exactly when the path
does not exist; every other I/O error — including a failure to open
for another reason, modelled as `failAfter []` — gets the generic
report and yields the items accumulated before the failure (empty
when the failure was at open); in every case the loader returns
normally and the caller proceeds. -/
theorem C8_loader_amended :
    parse_input_file ReadOutcome.notFound = ([], LoadReport.fileNotFound) ∧
    (∀ ls, parse_input_file (ReadOutcome.failAfter ls) =
      (processInputLines ls, LoadReport.otherError)) ∧
    parse_input_file (ReadOutcome.failAfter []) = ([], LoadReport.otherError) ∧
    (∀ ls, parse_input_file (ReadOutcome.ok ls) =
      (processInputLines ls, LoadReport.success)) :=
  ⟨rfl, fun _ => rfl, rfl, fun _ => rfl⟩

/-- Claim C9 counterexample: the response `"(a) (b)"` passes
validation, yet the card built from it has an empty source example
sentence (there is no text before the first `'('`). -/
theorem C9_counterexample :
    is_valid_format "(a) (b)" = true ∧
    create_anki_deck ["Casa"] (fun _ _ => ClientResult.ok "(a) (b)") =
      [⟨"Casa", "De b", "", "a"⟩] ∧
    AnkiNote.sourceSentence ⟨"Casa", "De b", "", "a"⟩ = "" :=
  ⟨by decide, by decide, rfl⟩

/-- Claim C9 (amended): every card produced by the pipeline has a
non-empty source word and a non-empty target word; the two example
sentence fields are always present strings but may be empty. -/
theorem C9_nonempty_fields_amended (lines : List String)
    (client : String → Nat → ClientResult) (note : AnkiNote)
    (h : note ∈ create_anki_deck (parse_input_file (ReadOutcome.ok lines)).1 client) :
    note.sourceWord ≠ "" ∧ note.targetWord ≠ "" := by
  rw [create_anki_deck] at h
  rcases List.mem_map.mp h with ⟨item, hitem, rfl⟩
  exact ⟨processInputLines_mem_ne_empty hitem, parse_targetWord_ne_empty _⟩

/-- Witness for C9: a concrete one-line run whose single card has
non-empty source and target words. -/
theorem C9_witness :
    (⟨"Casa", "De z", "x", "y"⟩ : AnkiNote) ∈
      create_anki_deck (parse_input_file (ReadOutcome.ok ["casa"])).1
        (fun _ _ => ClientResult.ok "x (y) (z)") ∧
    (⟨"Casa", "De z", "x", "y"⟩ : AnkiNote).sourceWord ≠ "" ∧
    (⟨"Casa", "De z", "x", "y"⟩ : AnkiNote).targetWord ≠ "" :=
  ⟨by decide,
    C9_nonempty_fields_amended ["casa"] (fun _ _ => ClientResult.ok "x (y) (z)")
      ⟨"Casa", "De z", "x", "y"⟩ (by decide)⟩

/-- Claim C10: when every attempt fails, the translation operation
returns the `"Translation and example not available."` sentinel; that
text contains no parenthetical group, so the parser degrades it to
the `"Parsing error"` triple, and the cards carry `"Parsing error"`
in all parsed fields — the "not available" sentinel never appears as
a parsed card field. -/
theorem C10_sentinel_not_in_deck (client : String → Nat → ClientResult)
    (h : ∀ w i t, client w i = ClientResult.ok t →
      is_valid_format (stripS t) = false) :
    (∀ w, (get_word_translation_and_example (client w) 3).text = notAvailable) ∧
    scanGroups notAvailable.data = [] ∧
    parse_generated_response notAvailable =
      ("Parsing error", "Parsing error", "Parsing error") ∧
    (∀ items, create_anki_deck items client = items.map (fun item =>
      ⟨item, "Parsing error", "Parsing error", "Parsing error"⟩)) ∧
    ("Parsing error" : String) ≠ notAvailable := by
  have htext : ∀ w, (get_word_translation_and_example (client w) 3).text
      = notAvailable :=
    fun w => gwteLoop_all_fail (client w) (fun i t => h w i t) 3 0 []
  have hparse : parse_generated_response notAvailable =
      ("Parsing error", "Parsing error", "Parsing error") := by decide
  refine ⟨htext, by decide, hparse, ?_, by decide⟩
  intro items
  rw [create_anki_deck]
  induction items with
  | nil => rfl
  | cons a t ih =>
    rw [List.map_cons, List.map_cons, ih]
    simp [htext a, hparse]

/-- Witness for C10: the always-rate-limited client produces decks of
pure `"Parsing error"` cards. -/
theorem C10_witness :
    create_anki_deck ["Casa"] (fun _ _ => ClientResult.rateLimited) =
      (["Casa"] : List String).map (fun item =>
        (⟨item, "Parsing error", "Parsing error", "Parsing error"⟩ : AnkiNote)) :=
  (C10_sentinel_not_in_deck (fun _ _ => ClientResult.rateLimited)
    (fun _ _ _ ht => nomatch ht)).2.2.2.1 ["Casa"]

end AnkiGen
